import Mathlib

/-!
Verification of the token-refresh component and redirect-URL code
extraction of `spotipy/util/credentials.py`.

The wrapper `RefreshingToken` is embedded with explicit state passing:
each property read is a function from the wrapper state to a triple
`(result, post-state, refresh-call trace)`, where the trace lists the
tokens passed to the credentials manager's `refresh` operation during
that read (the source has exactly one call site, inside the
`is_expiring` branch of the `access_token` getter).

`parse_code_from_url` is embedded together with the relevant behaviour
of `urllib.parse.urlparse` (query component extraction) and
`urllib.parse.parse_qs` (default arguments: blank values dropped,
fields without an equals sign dropped, separator `&`, values
plus- and percent-decoded). Strings are processed as `List Char` so
that every function reduces in the kernel.
-/

/-- Token record produced by the credentials manager (`spotipy.auth.Token`,
an external collaborator of the code under verification). Modelled from the
spec: fields `access_token`, `token_type`, `scope`, `refresh_token`, and the
derived boolean `is_expiring`; the numeric expiry fields are irrelevant to
the wrapper, which only reads the listed fields. -/
structure Token where
  access_token : String
  refresh_token : Option String
  token_type : String
  scope : String
  is_expiring : Bool
deriving DecidableEq

/-- Error raised by a failed refresh request (network or auth error from the
external collaborator). Modelled from the spec: an opaque error kind that the
wrapper never inspects. -/
structure RefreshError where
  msg : String
deriving DecidableEq

/-- Credentials manager interface, as consumed by `RefreshingToken`:
the `refresh` operation takes the current token and either returns a fresh
token or fails. Modelled from the spec (the manager itself is an external
HTTP collaborator). -/
structure Credentials where
  refresh : Token → Except RefreshError Token

/-- State of `RefreshingToken`: the held token `_token` and the credentials
manager `_credentials`, as set by `__init__`. -/
structure RefreshingToken where
  _token : Token
  _credentials : Credentials

/-- The `access_token` property getter:

```python
if self._token.is_expiring:
    self._token = self._credentials.refresh(self._token)
return self._token.access_token
```

Returns the result (the raised error, if refresh fails), the post-state
(the assignment to `self._token` happens only when refresh returns), and
the trace of refresh calls made. -/
def RefreshingToken.access_token_read (rt : RefreshingToken) :
    Except RefreshError String × RefreshingToken × List Token :=
  if rt._token.is_expiring then
    match rt._credentials.refresh rt._token with
    | Except.ok t => (Except.ok t.access_token, { rt with _token := t }, [rt._token])
    | Except.error e => (Except.error e, rt, [rt._token])
  else
    (Except.ok rt._token.access_token, rt, [])

/-- The `refresh_token` property getter: `return self._token.refresh_token`. -/
def RefreshingToken.refresh_token_read (rt : RefreshingToken) :
    Option String × RefreshingToken × List Token :=
  (rt._token.refresh_token, rt, [])

/-- The `token_type` property getter: `return self._token.token_type`. -/
def RefreshingToken.token_type_read (rt : RefreshingToken) :
    String × RefreshingToken × List Token :=
  (rt._token.token_type, rt, [])

/-- The `scope` property getter: `return self._token.scope`. -/
def RefreshingToken.scope_read (rt : RefreshingToken) :
    String × RefreshingToken × List Token :=
  (rt._token.scope, rt, [])

/-- The `expires_in` property getter: `return None`. -/
def RefreshingToken.expires_in_read (rt : RefreshingToken) :
    Option Int × RefreshingToken × List Token :=
  (none, rt, [])

/-- The `expires_at` property getter: `return None`. -/
def RefreshingToken.expires_at_read (rt : RefreshingToken) :
    Option Int × RefreshingToken × List Token :=
  (none, rt, [])

/-- The `is_expiring` property getter: `return False`. -/
def RefreshingToken.is_expiring_read (rt : RefreshingToken) :
    Bool × RefreshingToken × List Token :=
  (false, rt, [])

/-! ## Query parsing (`urllib.parse`) -/

/-- Split a character list at every occurrence of `sep`, like Python's
`str.split(sep)` for a one-character separator (always at least one group,
empty groups kept). -/
def splitAll (sep : Char) : List Char → List (List Char)
  | [] => [[]]
  | c :: rest =>
    match splitAll sep rest with
    | [] => [[c]]
    | grp :: gs => if c = sep then [] :: grp :: gs else (c :: grp) :: gs

/-- Split a character list at the first occurrence of `sep`, like Python's
`str.split(sep, 1)`: `none` when `sep` does not occur, otherwise the parts
before and after the first occurrence. -/
def splitFirst (sep : Char) : List Char → Option (List Char × List Char)
  | [] => none
  | c :: rest =>
    if c = sep then some ([], rest)
    else
      match splitFirst sep rest with
      | none => none
      | some (a, b) => some (c :: a, b)

/-- Value of a single hexadecimal digit, `none` for any other character. -/
def hexVal (c : Char) : Option Nat :=
  let n := c.toNat
  if 48 ≤ n ∧ n ≤ 57 then some (n - 48)
  else if 97 ≤ n ∧ n ≤ 102 then some (n - 87)
  else if 65 ≤ n ∧ n ≤ 70 then some (n - 55)
  else none

/-- Percent-decoding worker, structurally recursive on a fuel argument that
always dominates the list length (each step consumes at least one character
and one unit of fuel). -/
def unquoteAux : Nat → List Char → List Char
  | 0, _ => []
  | _, [] => []
  | Nat.succ n, c :: rest =>
    if c = '%' then
      match rest with
      | a :: b :: rest2 =>
        match hexVal a, hexVal b with
        | some ha, some hb => Char.ofNat (16 * ha + hb) :: unquoteAux n rest2
        | _, _ => c :: unquoteAux n rest
      | _ => c :: unquoteAux n rest
    else c :: unquoteAux n rest

/-- Percent-decoding as in `urllib.parse.unquote`: a `%` followed by two hex
digits becomes the character with that code, an invalid sequence is left
as-is and scanning resumes after the `%`. (Multi-byte UTF-8
percent-sequences decode here to the corresponding single-byte characters;
no claim involves non-ASCII input.) -/
def unquoteChars (l : List Char) : List Char :=
  unquoteAux l.length l

/-- The `.replace('+', ' ')` step applied by `parse_qsl` before unquoting. -/
def plusToSpace (l : List Char) : List Char :=
  l.map (fun c => if c = '+' then ' ' else c)

/-- Query component of a URL, as extracted by `urllib.parse.urlparse`:
the fragment (everything from the first `#`) is removed first, then the
query is everything after the first `?` of the remainder. -/
def queryOf (url : List Char) : List Char :=
  let beforeFrag :=
    match splitFirst '#' url with
    | some (a, _) => a
    | none => url
  match splitFirst '?' beforeFrag with
  | some (_, q) => q
  | none => []

/-- `urllib.parse.parse_qsl` with default arguments: split the query on `&`;
skip empty fields, fields without `=`, and fields whose value is blank
(`keep_blank_values=False`); plus- and percent-decode names and values. -/
def parse_qsl (qs : List Char) : List (List Char × List Char) :=
  (splitAll '&' qs).filterMap (fun nameValue =>
    if nameValue = [] then none
    else
      match splitFirst '=' nameValue with
      | none => none
      | some (name, value) =>
        if value = [] then none
        else some (unquoteChars (plusToSpace name), unquoteChars (plusToSpace value)))

/-- One step of the dict-building loop of `parse_qs`: append `value` to the
entry for `name`, creating the entry if absent (dict modelled as an
association list keyed by parameter name). -/
def qs_insert (d : List (List Char × List (List Char))) (name value : List Char) :
    List (List Char × List (List Char)) :=
  match d with
  | [] => [(name, [value])]
  | (k, vs) :: rest =>
    if k = name then (k, vs ++ [value]) :: rest
    else (k, vs) :: qs_insert rest name value

/-- `urllib.parse.parse_qs`: group the `parse_qsl` pairs into a dict from
parameter name to the list of its values, in order. -/
def parse_qs (qs : List Char) : List (List Char × List (List Char)) :=
  (parse_qsl qs).foldl (fun d p => qs_insert d p.1 p.2) []

/-- Dict lookup with default `None`: Python's `dict.get(key, None)`. -/
def dict_get (d : List (List Char × List (List Char))) (key : List Char) :
    Option (List (List Char)) :=
  match d with
  | [] => none
  | (k, vs) :: rest => if k = key then some vs else dict_get rest key

/-- The two `KeyError`s raised by `parse_code_from_url`: `missing` for
"Parameter `code` not available!" and `multiple` for
"Multiple values for `code`!". -/
inductive CodeError where
  | missing
  | multiple
deriving DecidableEq

/-- The characters of the query-parameter name `code`. -/
def code_key : List Char := "code".data

/-- `parse_code_from_url`:

```python
query = urlparse(url).query
code = parse_qs(query).get('code', None)
if code is None:
    raise KeyError('Parameter `code` not available!')
elif len(code) > 1:
    raise KeyError('Multiple values for `code`!')
return code[0]
```
-/
def parse_code_from_url (url : String) : Except CodeError String :=
  let query := queryOf url.data
  match dict_get (parse_qs query) code_key with
  | none => Except.error CodeError.missing
  | some code =>
    if code.length > 1 then Except.error CodeError.multiple
    else Except.ok (String.mk (code.headD []))

/-- Values associated with `key` among the parsed query pairs, in order;
used to state which parameters a query string contains. -/
def valuesFor : List (List Char × List Char) → List Char → List (List Char)
  | [], _ => []
  | p :: rest, key => if p.1 = key then p.2 :: valuesFor rest key else valuesFor rest key

/-! ## Concrete fixtures -/

/-- An expiring token held before a refresh. -/
def tokOld : Token :=
  { access_token := "old-access", refresh_token := some "old-refresh",
    token_type := "Bearer", scope := "user-read", is_expiring := true }

/-- The fresh token returned by a successful refresh. -/
def tokNew : Token :=
  { access_token := "new-access", refresh_token := some "new-refresh",
    token_type := "Bearer", scope := "user-read", is_expiring := false }

/-- A token that is not close to expiry. -/
def tokFresh : Token :=
  { access_token := "fresh-access", refresh_token := none,
    token_type := "Bearer", scope := "user-read", is_expiring := false }

/-- A refresh failure (network error from the external collaborator). -/
def errNet : RefreshError := { msg := "network error" }

/-- A credentials manager whose refresh succeeds with `tokNew`. -/
def credOk : Credentials := { refresh := fun _ => Except.ok tokNew }

/-- A credentials manager whose refresh fails with `errNet`. -/
def credFail : Credentials := { refresh := fun _ => Except.error errNet }

/-- A wrapper holding an expiring token over a succeeding manager. -/
def rtStale : RefreshingToken := { _token := tokOld, _credentials := credOk }

/-- A wrapper holding an expiring token over a failing manager. -/
def rtFailing : RefreshingToken := { _token := tokOld, _credentials := credFail }

/-- A wrapper holding a fresh token. -/
def rtFresh : RefreshingToken := { _token := tokFresh, _credentials := credOk }

/-! ## Claims about `RefreshingToken` -/

/-- C1: for every held token whose `is_expiring` is true, reading
`access_token` invokes exactly one refresh call on the credentials manager
with the current token, replaces the held token with the result, and
returns the refreshed token's access-token value. -/
theorem access_token_refreshes_when_expiring (rt : RefreshingToken) (t' : Token)
    (hexp : rt._token.is_expiring = true)
    (href : rt._credentials.refresh rt._token = Except.ok t') :
    rt.access_token_read =
      (Except.ok t'.access_token, { rt with _token := t' }, [rt._token]) := by
  simp [RefreshingToken.access_token_read, hexp, href]

theorem access_token_refreshes_when_expiring_witness :
    rtStale._token.is_expiring = true ∧
      rtStale._credentials.refresh rtStale._token = Except.ok tokNew ∧
      rtStale.access_token_read =
        (Except.ok tokNew.access_token, { rtStale with _token := tokNew },
          [rtStale._token]) :=
  ⟨rfl, rfl, access_token_refreshes_when_expiring rtStale tokNew rfl rfl⟩

/-- C2: if the refresh call fails during an `access_token` read, the error
propagates unmodified, the previously held token remains in place, and a
subsequent `access_token` read attempts the refresh again (its refresh-call
trace again consists of the held token). -/
theorem access_token_refresh_failure_keeps_token (rt : RefreshingToken) (e : RefreshError)
    (hexp : rt._token.is_expiring = true)
    (href : rt._credentials.refresh rt._token = Except.error e) :
    rt.access_token_read = (Except.error e, rt, [rt._token]) ∧
      rt.access_token_read.2.1.access_token_read.2.2 = [rt._token] := by
  constructor
  · simp [RefreshingToken.access_token_read, hexp, href]
  · simp [RefreshingToken.access_token_read, hexp, href]

theorem access_token_refresh_failure_keeps_token_witness :
    rtFailing._token.is_expiring = true ∧
      rtFailing._credentials.refresh rtFailing._token = Except.error errNet ∧
      rtFailing.access_token_read = (Except.error errNet, rtFailing, [rtFailing._token]) ∧
      rtFailing.access_token_read.2.1.access_token_read.2.2 = [rtFailing._token] :=
  ⟨rfl, rfl,
    (access_token_refresh_failure_keeps_token rtFailing errNet rfl rfl).1,
    (access_token_refresh_failure_keeps_token rtFailing errNet rfl rfl).2⟩

/-- C3: for every held token whose `is_expiring` is false, reading
`access_token` invokes no call on the credentials manager and returns the
held token's access-token value unchanged. -/
theorem access_token_no_refresh_when_fresh (rt : RefreshingToken)
    (hexp : rt._token.is_expiring = false) :
    rt.access_token_read = (Except.ok rt._token.access_token, rt, []) := by
  simp [RefreshingToken.access_token_read, hexp]

theorem access_token_no_refresh_when_fresh_witness :
    rtFresh._token.is_expiring = false ∧
      rtFresh.access_token_read = (Except.ok rtFresh._token.access_token, rtFresh, []) :=
  ⟨rfl, access_token_no_refresh_when_fresh rtFresh rfl⟩

/-- C4: reading `expires_in` and `expires_at` always returns `None`, and
reading `is_expiring` always returns `False`, regardless of the underlying
token's state; none of these reads touches the state or the manager. -/
theorem expiry_reads_are_constant (rt : RefreshingToken) :
    rt.expires_in_read = (none, rt, []) ∧
      rt.expires_at_read = (none, rt, []) ∧
      rt.is_expiring_read = (false, rt, []) :=
  ⟨rfl, rfl, rfl⟩

/-- C5: reading `refresh_token`, `token_type`, or `scope` passes through the
corresponding field of the currently held token with no refresh call, and
after a successful refresh these reads reflect the new token. -/
theorem passthrough_reads_follow_held_token (rt : RefreshingToken) :
    (rt.refresh_token_read = (rt._token.refresh_token, rt, []) ∧
      rt.token_type_read = (rt._token.token_type, rt, []) ∧
      rt.scope_read = (rt._token.scope, rt, [])) ∧
    ∀ t', rt._token.is_expiring = true →
      rt._credentials.refresh rt._token = Except.ok t' →
      (rt.access_token_read.2.1.refresh_token_read.1 = t'.refresh_token ∧
        rt.access_token_read.2.1.token_type_read.1 = t'.token_type ∧
        rt.access_token_read.2.1.scope_read.1 = t'.scope) := by
  refine ⟨⟨rfl, rfl, rfl⟩, ?_⟩
  intro t' hexp href
  simp [RefreshingToken.access_token_read, hexp, href,
    RefreshingToken.refresh_token_read, RefreshingToken.token_type_read,
    RefreshingToken.scope_read]

theorem passthrough_reads_follow_held_token_witness :
    rtStale._token.is_expiring = true ∧
      rtStale._credentials.refresh rtStale._token = Except.ok tokNew ∧
      rtStale.refresh_token_read = (rtStale._token.refresh_token, rtStale, []) ∧
      rtStale.access_token_read.2.1.refresh_token_read.1 = tokNew.refresh_token :=
  ⟨rfl, rfl, (passthrough_reads_follow_held_token rtStale).1.1,
    ((passthrough_reads_follow_held_token rtStale).2 tokNew rfl rfl).1⟩

/-- C6: the held token is replaced only as a side effect of an
`access_token` read on an expiring token; every other wrapper read leaves
the wrapper state unchanged, and the credentials reference is never
replaced. -/
theorem held_token_replaced_only_by_expiring_read (rt : RefreshingToken) :
    rt.refresh_token_read.2.1 = rt ∧
    rt.token_type_read.2.1 = rt ∧
    rt.scope_read.2.1 = rt ∧
    rt.expires_in_read.2.1 = rt ∧
    rt.expires_at_read.2.1 = rt ∧
    rt.is_expiring_read.2.1 = rt ∧
    rt.access_token_read.2.1._credentials = rt._credentials ∧
    (rt._token.is_expiring = false → rt.access_token_read.2.1 = rt) ∧
    (rt.access_token_read.2.1 ≠ rt →
      rt._token.is_expiring = true ∧
      ∃ t', rt._credentials.refresh rt._token = Except.ok t' ∧
        rt.access_token_read.2.1 = { rt with _token := t' }) := by
  refine ⟨rfl, rfl, rfl, rfl, rfl, rfl, ?_, ?_, ?_⟩
  · cases hexp : rt._token.is_expiring
    · simp [RefreshingToken.access_token_read, hexp]
    · cases href : rt._credentials.refresh rt._token <;>
        simp [RefreshingToken.access_token_read, hexp, href]
  · intro hexp
    simp [RefreshingToken.access_token_read, hexp]
  · intro hne
    cases hexp : rt._token.is_expiring
    · exact absurd (by simp [RefreshingToken.access_token_read, hexp]) hne
    · refine ⟨rfl, ?_⟩
      cases href : rt._credentials.refresh rt._token with
      | error e => exact absurd (by simp [RefreshingToken.access_token_read, hexp, href]) hne
      | ok t => exact ⟨t, rfl, by simp [RefreshingToken.access_token_read, hexp, href]⟩

theorem held_token_replaced_only_by_expiring_read_witness :
    rtFresh._token.is_expiring = false ∧
      rtFresh.access_token_read.2.1 = rtFresh ∧
      rtFresh.scope_read.2.1 = rtFresh :=
  ⟨rfl, (held_token_replaced_only_by_expiring_read rtFresh).2.2.2.2.2.2.2.1 rfl,
    (held_token_replaced_only_by_expiring_read rtFresh).2.2.1⟩

/-! ## Claims about `parse_code_from_url` -/

/-- Looking up a key after a single dict-insert step: the inserted value is
appended to the key's entry, and other keys are unaffected. -/
theorem dict_get_qs_insert (d : List (List Char × List (List Char)))
    (name value key : List Char) :
    dict_get (qs_insert d name value) key =
      if name = key then some ((dict_get d key).getD [] ++ [value])
      else dict_get d key := by
  induction d with
  | nil =>
    by_cases h : name = key <;> simp [qs_insert, dict_get, h]
  | cons p rest ih =>
    obtain ⟨k, vs⟩ := p
    by_cases hkn : k = name
    · subst hkn
      by_cases hk : k = key <;> simp [qs_insert, dict_get, hk]
    · by_cases hk : k = key
      · subst hk
        have hnk : ¬ name = k := fun h => hkn h.symm
        simp [qs_insert, dict_get, hkn, hnk]
      · simp [qs_insert, dict_get, hkn, hk, ih]

/-- Looking up a key after folding the dict-building loop over a pair list:
the result collects the key's prior entry and all its values among the
pairs, and is `none` exactly when both are absent. -/
theorem dict_get_foldl_qs_insert (pairs : List (List Char × List Char))
    (d : List (List Char × List (List Char))) (key : List Char) :
    dict_get (pairs.foldl (fun d p => qs_insert d p.1 p.2) d) key =
      if dict_get d key = none ∧ valuesFor pairs key = [] then none
      else some ((dict_get d key).getD [] ++ valuesFor pairs key) := by
  induction pairs generalizing d with
  | nil =>
    cases h : dict_get d key <;> simp [valuesFor, h]
  | cons p rest ih =>
    rw [List.foldl_cons, ih, dict_get_qs_insert]
    by_cases hp : p.1 = key
    · simp [valuesFor, hp, List.append_assoc]
    · simp [valuesFor, hp]

/-- The `parse_qs(query).get('code', None)` composite: `none` when the
parsed query has no pair for the key, otherwise the list of the key's
values in order. -/
theorem dict_get_parse_qs (qs key : List Char) :
    dict_get (parse_qs qs) key =
      if valuesFor (parse_qsl qs) key = [] then none
      else some (valuesFor (parse_qsl qs) key) := by
  rw [parse_qs, dict_get_foldl_qs_insert]
  simp [dict_get]

/-- C7: for every redirect URL whose parsed query contains exactly one
`code` parameter, with value `v`, `parse_code_from_url` returns `v`. -/
theorem parse_code_from_url_single_code (url : String) (v : List Char)
    (h : valuesFor (parse_qsl (queryOf url.data)) code_key = [v]) :
    parse_code_from_url url = Except.ok (String.mk v) := by
  simp only [parse_code_from_url]
  rw [dict_get_parse_qs, h]
  simp

theorem parse_code_from_url_single_code_witness :
    valuesFor (parse_qsl (queryOf ("https://example.com/callback?code=ABC").data))
        code_key = ["ABC".data] ∧
      parse_code_from_url "https://example.com/callback?code=ABC" =
        Except.ok (String.mk ("ABC".data)) :=
  ⟨by decide,
    parse_code_from_url_single_code "https://example.com/callback?code=ABC"
      ("ABC".data) (by decide)⟩

/-- C8: for every redirect URL whose parsed query contains no `code`
parameter, `parse_code_from_url` fails with the missing-code error. -/
theorem parse_code_from_url_no_code (url : String)
    (h : valuesFor (parse_qsl (queryOf url.data)) code_key = []) :
    parse_code_from_url url = Except.error CodeError.missing := by
  simp only [parse_code_from_url]
  rw [dict_get_parse_qs, h]
  simp

theorem parse_code_from_url_no_code_witness :
    valuesFor (parse_qsl (queryOf ("https://example.com/callback?state=xyz").data))
        code_key = [] ∧
      parse_code_from_url "https://example.com/callback?state=xyz" =
        Except.error CodeError.missing :=
  ⟨by decide,
    parse_code_from_url_no_code "https://example.com/callback?state=xyz" (by decide)⟩

/-- C9: for every redirect URL whose parsed query contains the `code`
parameter more than once, `parse_code_from_url` fails with the
multiple-code error, which is distinct from the missing-code error. -/
theorem parse_code_from_url_duplicate_code (url : String)
    (h : 2 ≤ (valuesFor (parse_qsl (queryOf url.data)) code_key).length) :
    parse_code_from_url url = Except.error CodeError.multiple ∧
      CodeError.multiple ≠ CodeError.missing := by
  have hne : valuesFor (parse_qsl (queryOf url.data)) code_key ≠ [] := by
    intro hnil
    rw [hnil] at h
    simp at h
  refine ⟨?_, by decide⟩
  simp only [parse_code_from_url]
  rw [dict_get_parse_qs, if_neg (by simp [hne])]
  have hlen : (valuesFor (parse_qsl (queryOf url.data)) code_key).length > 1 := by omega
  simp [hlen]

theorem parse_code_from_url_duplicate_code_witness :
    2 ≤ (valuesFor (parse_qsl (queryOf ("https://example.com/callback?code=A&code=B").data))
          code_key).length ∧
      parse_code_from_url "https://example.com/callback?code=A&code=B" =
        Except.error CodeError.multiple :=
  ⟨by decide,
    (parse_code_from_url_duplicate_code "https://example.com/callback?code=A&code=B"
      (by decide)).1⟩

/-- C10: a `code` parameter with a blank value is dropped by query parsing
(`keep_blank_values` defaults to false), so `parse_code_from_url` on a URL
whose query is `code=` raises the missing-code error rather than returning
the empty string. -/
theorem parse_code_from_url_blank_code_dropped :
    parse_qsl ("code=".data) = [] ∧
      parse_code_from_url "https://example.com/callback?code=" =
        Except.error CodeError.missing :=
  ⟨by decide, by rfl⟩
